import Mathlib

/-!
Shallow embedding of the Veritas ML engine's risk aggregation and
classification core (src/ml_engine/aegis_ml_engine.py).

Python floats are modelled as exact rationals (ℚ); all constants in the
source are short decimal literals, exact in ℚ.  JSON request bodies are
modelled as records of `Option` fields, since the handlers read every
field with `data.get(key, default)`: an absent key yields the default.
The wall-clock timestamp that each handler stamps into its response is
passed in as an explicit argument `now`.  A Python exception that escapes
a computation is modelled as `Except.error`.
-/

namespace Veritas

/-- Output of `ml_engine.predict()` as consumed by the handlers: the
fields `risk_score`, `liquidity_score` and `confidence`. -/
structure MarketPrediction where
  risk_score : ℚ
  liquidity_score : ℚ
  confidence : ℚ
  deriving Repr, DecidableEq

/-- Risk level labels assigned by `assess_leverage_health`. -/
inductive RiskLevel where
  | LOW
  | MEDIUM
  | HIGH
  | CRITICAL
  deriving Repr, DecidableEq

/-- Ordinal rank of a risk level, CRITICAL > HIGH > MEDIUM > LOW. -/
def RiskLevel.toNat : RiskLevel → Nat
  | .LOW => 0
  | .MEDIUM => 1
  | .HIGH => 2
  | .CRITICAL => 3

/-- JSON body of a POST to /api/v1/leverage-health.  Each field is
optional because the handler reads it with `data.get(key, 0)`. -/
structure LeverageRequest where
  totalCollateral : Option ℚ
  totalBorrowed : Option ℚ
  currentHealthFactor : Option ℚ
  aitValue : Option ℚ
  deriving Repr, DecidableEq

/-- The `position_risk` dict computed by `assess_leverage_health`. -/
structure PositionRisk where
  ltv_risk : ℚ
  health_factor_risk : ℚ
  market_risk : ℚ
  liquidity_risk : ℚ
  deriving Repr, DecidableEq

/-- JSON response of `assess_leverage_health` (the `position_metrics`
sub-object is flattened into the fields `ltv`, `health_factor`,
`ait_value_usd`, `exposure_ratio`). -/
structure LeverageVerdict where
  composite_risk_score : ℚ
  risk_level : RiskLevel
  action_required : Bool
  ltv : ℚ
  health_factor : ℚ
  ait_value_usd : ℚ
  exposure_ratio : ℚ
  risk_breakdown : PositionRisk
  recommendations : List String
  timestamp : ℤ
  deriving Repr, DecidableEq

/-- Risk threshold cascade of `assess_leverage_health` (lines 329-339):
starts at LOW and is overwritten by the first matching strict band. -/
def leverage_risk_level (composite_risk : ℚ) : RiskLevel :=
  if composite_risk > 0.8 then RiskLevel.CRITICAL
  else if composite_risk > 0.6 then RiskLevel.HIGH
  else if composite_risk > 0.4 then RiskLevel.MEDIUM
  else RiskLevel.LOW

/-- The `action_required` flag: set exactly in the CRITICAL and HIGH
branches of the threshold cascade. -/
def leverage_action_required (composite_risk : ℚ) : Bool :=
  if composite_risk > 0.8 then true
  else if composite_risk > 0.6 then true
  else false

/-- Body of the /api/v1/leverage-health handler (lines 291-363), given
the market prediction returned by `ml_engine.predict()` and the current
time `now`. -/
def assess_leverage_health (data : LeverageRequest)
    (market_prediction : MarketPrediction) (now : ℤ) : LeverageVerdict :=
  let total_collateral := data.totalCollateral.getD 0
  let total_borrowed := data.totalBorrowed.getD 0
  let current_health_factor := data.currentHealthFactor.getD 0
  let ait_value := data.aitValue.getD 0
  let ltv := if total_collateral > 0 then total_borrowed / total_collateral else 0
  let position_risk : PositionRisk :=
    { ltv_risk := min 1 (ltv / 0.7)
      health_factor_risk := max 0 (1 - current_health_factor / 1.5)
      market_risk := market_prediction.risk_score
      liquidity_risk := 1 - market_prediction.liquidity_score }
  let composite_risk :=
    position_risk.ltv_risk * 0.3 +
    position_risk.health_factor_risk * 0.3 +
    position_risk.market_risk * 0.25 +
    position_risk.liquidity_risk * 0.15
  let recommendations :=
    (if ltv > 0.65 then ["REDUCE_LEVERAGE"] else []) ++
    (if current_health_factor < 1.3 then ["EMERGENCY_DELEVERAGE"] else []) ++
    (if market_prediction.liquidity_score < 0.3 then ["PAUSE_NEW_POSITIONS"] else [])
  { composite_risk_score := composite_risk
    risk_level := leverage_risk_level composite_risk
    action_required := leverage_action_required composite_risk
    ltv := ltv
    health_factor := current_health_factor
    ait_value_usd := ait_value
    exposure_ratio := if total_borrowed > 0 then ait_value / total_borrowed else 0
    risk_breakdown := position_risk
    recommendations := recommendations
    timestamp := now }

/-- The /api/v1/leverage-health endpoint wraps its body in
try/except; given a successful market prediction, no statement of the
body can raise (every field read has a default, every division is
guarded), so the endpoint always answers 200 with the verdict. -/
def leverage_health_endpoint (data : LeverageRequest)
    (market_prediction : MarketPrediction) (now : ℤ) :
    Except String LeverageVerdict :=
  Except.ok (assess_leverage_health data market_prediction now)

/-- JSON body of a POST to /api/v1/kyc-risk-assessment; every field is
read with `data.get(key, default)` (default 0, or '' for jurisdiction). -/
structure KYCRequest where
  investmentAmount : Option ℚ
  tier : Option ℤ
  jurisdiction : Option String
  transactionFrequency : Option ℚ
  walletAgeDays : Option ℚ
  previousDefiExposure : Option ℚ
  deriving Repr, DecidableEq

/-- Risk classification labels assigned by `assess_kyc_risk`. -/
inductive RiskClassification where
  | LOW_RISK
  | MEDIUM_RISK
  | HIGH_RISK
  deriving Repr, DecidableEq

/-- The `risk_factors` dict computed by `assess_kyc_risk`. -/
structure KYCFactors where
  amount_risk : ℚ
  velocity_risk : ℚ
  wallet_risk : ℚ
  jurisdiction_risk : ℚ
  deriving Repr, DecidableEq

/-- JSON response of `assess_kyc_risk`. -/
structure KYCVerdict where
  kyc_risk_score : ℚ
  risk_classification : RiskClassification
  verification_required : Bool
  risk_factors : KYCFactors
  compliance_flags : List String
  recommended_tier : ℤ
  timestamp : ℤ
  deriving Repr, DecidableEq

/-- Body of the /api/v1/kyc-risk-assessment handler (lines 371-434),
given the current time `now`; it does not consult the market predictor. -/
def assess_kyc_risk (data : KYCRequest) (now : ℤ) : KYCVerdict :=
  let investment_amount := data.investmentAmount.getD 0
  let tier := data.tier.getD 0
  let jurisdiction := data.jurisdiction.getD ""
  let transaction_frequency := data.transactionFrequency.getD 0
  let wallet_age_days := data.walletAgeDays.getD 0
  let risk_factors : KYCFactors :=
    { amount_risk := min 1 (investment_amount / 1000000)
      velocity_risk := min 1 (transaction_frequency / 100)
      wallet_risk := max 0 (1 - wallet_age_days / 365)
      jurisdiction_risk :=
        if jurisdiction ∈ ["US", "EU", "UK"] then 0.1 else 0.3 }
  let kyc_risk_score :=
    risk_factors.amount_risk * 0.3 +
    risk_factors.velocity_risk * 0.2 +
    risk_factors.wallet_risk * 0.3 +
    risk_factors.jurisdiction_risk * 0.2
  let risk_classification :=
    if kyc_risk_score > 0.7 then RiskClassification.HIGH_RISK
    else if kyc_risk_score > 0.4 then RiskClassification.MEDIUM_RISK
    else RiskClassification.LOW_RISK
  let verification_required :=
    if kyc_risk_score > 0.7 then true
    else if kyc_risk_score > 0.4 then true
    else false
  let flags :=
    (if investment_amount > 500000 then ["LARGE_INVESTMENT"] else []) ++
    (if wallet_age_days < 30 then ["NEW_WALLET"] else []) ++
    (if transaction_frequency > 50 then ["HIGH_VELOCITY"] else [])
  { kyc_risk_score := kyc_risk_score
    risk_classification := risk_classification
    verification_required := verification_required
    risk_factors := risk_factors
    compliance_flags := flags
    recommended_tier := min tier (if kyc_risk_score > 0.5 then 2 else 4)
    timestamp := now }

/-- JSON body of a POST to /api/v1/invoice-nav-prediction; every field
is read with `data.get(key, 0)` except `totalSupply`, which is read with
`data.get('totalSupply', 1)`. -/
structure NAVRequest where
  totalFaceValue : Option ℚ
  numberOfInvoices : Option ℚ
  weightedMaturity : Option ℚ
  expectedYield : Option ℚ
  defaultRate : Option ℚ
  realizedYield : Option ℚ
  totalSupply : Option ℚ
  deriving Repr, DecidableEq

/-- JSON response of `predict_invoice_nav`. -/
structure NAVVerdict where
  predicted_nav : ℚ
  confidence : ℚ
  expected_collection_rate : ℚ
  risk_adjusted_yield : ℚ
  pool_health_score : ℚ
  diversification_score : ℚ
  market_risk_impact : ℚ
  timestamp : ℤ
  deriving Repr, DecidableEq

/-- The `expected_collections` intermediate of `predict_invoice_nav`:
`total_face_value * (base_collection_rate * (1 - risk_score * 0.3))`. -/
def expected_collections_of (data : NAVRequest)
    (market_risk : MarketPrediction) : ℚ :=
  data.totalFaceValue.getD 0 *
    ((1 - data.defaultRate.getD 0) * (1 - market_risk.risk_score * 0.3))

/-- Body of the /api/v1/invoice-nav-prediction handler (lines 442-500),
given the market prediction and the current time `now`.  Python raises
ZeroDivisionError when the divisor `data.get('totalSupply', 1)` is zero;
the surrounding try/except turns that into an error response. -/
def predict_invoice_nav (data : NAVRequest)
    (market_risk : MarketPrediction) (now : ℤ) : Except String NAVVerdict :=
  let total_face_value := data.totalFaceValue.getD 0
  let number_of_invoices := data.numberOfInvoices.getD 0
  let weighted_maturity := data.weightedMaturity.getD 0
  let expected_yield := data.expectedYield.getD 0
  let current_default_rate := data.defaultRate.getD 0
  let base_collection_rate := 1 - current_default_rate
  let market_adjusted_rate := base_collection_rate * (1 - market_risk.risk_score * 0.3)
  let expected_collections := total_face_value * market_adjusted_rate
  let total_supply := data.totalSupply.getD 1
  if total_supply = 0 then Except.error "ZeroDivisionError" else
  let predicted_nav := expected_collections / total_supply
  let diversification_score := min 1 (number_of_invoices / 100)
  let maturity_risk := min 1 (weighted_maturity / 180)
  let confidence :=
    diversification_score * 0.4 +
    (1 - maturity_risk) * 0.3 +
    market_risk.confidence * 0.3
  let risk_adjusted_yield := expected_yield * (1 - market_risk.risk_score * 0.5)
  Except.ok
    { predicted_nav := predicted_nav
      confidence := confidence
      expected_collection_rate := market_adjusted_rate
      risk_adjusted_yield := risk_adjusted_yield
      pool_health_score := 1 - market_risk.risk_score
      diversification_score := diversification_score
      market_risk_impact := market_risk.risk_score
      timestamp := now }

/-- Body of the GET /api/v1/scenario/scenario handler (lines 260-289),
given the prediction returned by `ml_engine.predict()`.  An unknown
scenario key answers HTTP 400 with an error object before the predictor
is even called; the adjustment is applied to the fields of the
prediction dict, every other field passing through unchanged. -/
def scenario_analysis (scenario : String) (prediction : MarketPrediction) :
    Except (Nat × String) (String × MarketPrediction) :=
  if scenario ∉ ["base", "stress", "bull"] then
    Except.error (400, "Invalid scenario")
  else
    let prediction :=
      if scenario = "stress" then
        { prediction with
          risk_score := min 1 (prediction.risk_score * 1.5)
          liquidity_score := prediction.liquidity_score * 0.5 }
      else if scenario = "bull" then
        { prediction with
          risk_score := prediction.risk_score * 0.7
          liquidity_score := min 1 (prediction.liquidity_score * 1.2) }
      else prediction
    Except.ok (scenario, prediction)

/-- The constant weights of the leverage composite (lines 321-326). -/
def leverage_weights : List ℚ := [0.3, 0.3, 0.25, 0.15]

/-- The constant weights of the KYC composite (lines 399-404). -/
def kyc_weights : List ℚ := [0.3, 0.2, 0.3, 0.2]

/-- The constant weights of the NAV confidence (lines 476-480). -/
def nav_confidence_weights : List ℚ := [0.4, 0.3, 0.3]

/-- Replace the timestamp field of a leverage verdict, isolating the
fields that depend only on the snapshot and the market prediction. -/
def LeverageVerdict.atTime (v : LeverageVerdict) (t : ℤ) : LeverageVerdict :=
  { v with timestamp := t }

/-- Replace the timestamp field of a KYC verdict. -/
def KYCVerdict.atTime (v : KYCVerdict) (t : ℤ) : KYCVerdict :=
  { v with timestamp := t }

/-- Replace the timestamp field of a NAV verdict. -/
def NAVVerdict.atTime (v : NAVVerdict) (t : ℤ) : NAVVerdict :=
  { v with timestamp := t }

/-- Fill every absent field of a leverage request with the default 0
that `data.get(key, 0)` supplies. -/
def LeverageRequest.withDefaults (data : LeverageRequest) : LeverageRequest :=
  { totalCollateral := some (data.totalCollateral.getD 0)
    totalBorrowed := some (data.totalBorrowed.getD 0)
    currentHealthFactor := some (data.currentHealthFactor.getD 0)
    aitValue := some (data.aitValue.getD 0) }

/-- Position snapshot of test scenario 1: collateral 1000, borrowed 750,
health factor 1.1. -/
def scenario1_request : LeverageRequest :=
  { totalCollateral := some 1000
    totalBorrowed := some 750
    currentHealthFactor := some 1.1
    aitValue := some 0 }

/-- Market assessment of test scenario 1: risk_score 0.5,
liquidity_score 0.4. -/
def scenario1_market : MarketPrediction :=
  { risk_score := 0.5
    liquidity_score := 0.4
    confidence := 0.5 }

/-- A leverage-health request body in which every required snapshot
field is absent. -/
def empty_leverage_request : LeverageRequest :=
  { totalCollateral := none
    totalBorrowed := none
    currentHealthFactor := none
    aitValue := none }

/-- Investor snapshot of test scenario 2: amount 600000, tier 3,
jurisdiction US, frequency 10, wallet age 400 days. -/
def scenario2_request : KYCRequest :=
  { investmentAmount := some 600000
    tier := some 3
    jurisdiction := some "US"
    transactionFrequency := some 10
    walletAgeDays := some 400
    previousDefiExposure := some 0 }

/-- A NAV request with an explicit positive total supply. -/
def sample_nav_request : NAVRequest :=
  { totalFaceValue := some 1000
    numberOfInvoices := some 50
    weightedMaturity := some 90
    expectedYield := some 0.1
    defaultRate := some 0.05
    realizedYield := some 0.08
    totalSupply := some 2 }

/-- A NAV request whose totalSupply field is absent. -/
def nav_request_no_supply : NAVRequest :=
  { totalFaceValue := some 1000
    numberOfInvoices := some 50
    weightedMaturity := some 90
    expectedYield := some 0.1
    defaultRate := some 0.05
    realizedYield := some 0.08
    totalSupply := none }

/-- A market assessment used to exercise the NAV forecaster. -/
def sample_nav_market : MarketPrediction :=
  { risk_score := 0.5
    liquidity_score := 0.6
    confidence := 0.8 }

/-- C1 counterexample: on scenario 1 (collateral 1000, borrowed 750,
health factor 1.1, risk_score 0.5, liquidity_score 0.4) the composite is
NOT 0.6050 and the tier is NOT HIGH — the claimed weighted sum
0.3*1.0 + 0.3*(1 - 1.1/1.5) + 0.25*0.5 + 0.15*0.6 actually equals 0.595,
which falls in the MEDIUM band. -/
theorem scenario1_claim_refuted :
    ¬ ((assess_leverage_health scenario1_request scenario1_market 0).composite_risk_score = 0.6050 ∧
       (assess_leverage_health scenario1_request scenario1_market 0).risk_level = RiskLevel.HIGH ∧
       (assess_leverage_health scenario1_request scenario1_market 0).action_required = true) := by
  simp [assess_leverage_health, scenario1_request, scenario1_market,
    leverage_risk_level, leverage_action_required, min_def, max_def]
  norm_num

/-- C1 amended: on scenario 1 the evaluator computes ltv = 0.75,
ltv_risk = 1.0 (clamped), health_factor_risk = 1 - 1.1/1.5 = 4/15,
market_risk = 0.5, liquidity_risk = 0.6, composite = 0.595, tier MEDIUM
with action_required = false, and the recommendation list contains both
REDUCE_LEVERAGE and EMERGENCY_DELEVERAGE. -/
theorem scenario1_assessment :
    (assess_leverage_health scenario1_request scenario1_market 0).ltv = 0.75 ∧
    (assess_leverage_health scenario1_request scenario1_market 0).risk_breakdown =
      { ltv_risk := 1, health_factor_risk := 4/15, market_risk := 0.5, liquidity_risk := 0.6 } ∧
    (assess_leverage_health scenario1_request scenario1_market 0).composite_risk_score = 0.595 ∧
    (assess_leverage_health scenario1_request scenario1_market 0).risk_level = RiskLevel.MEDIUM ∧
    (assess_leverage_health scenario1_request scenario1_market 0).action_required = false ∧
    (assess_leverage_health scenario1_request scenario1_market 0).recommendations =
      ["REDUCE_LEVERAGE", "EMERGENCY_DELEVERAGE"] ∧
    "REDUCE_LEVERAGE" ∈ (assess_leverage_health scenario1_request scenario1_market 0).recommendations ∧
    "EMERGENCY_DELEVERAGE" ∈ (assess_leverage_health scenario1_request scenario1_market 0).recommendations := by
  refine ⟨?_, ?_, ?_, ?_, ?_, ?_, ?_, ?_⟩ <;>
    simp [assess_leverage_health, scenario1_request, scenario1_market,
      leverage_risk_level, leverage_action_required, min_def, max_def] <;>
    norm_num

/-- C2 counterexample: a request in which every required snapshot field
(totalCollateral, totalBorrowed, currentHealthFactor, asset value) is
absent does NOT fail with InvalidInputError — the handler substitutes 0
for each and answers with a normal verdict. -/
theorem missing_fields_claim_refuted :
    leverage_health_endpoint empty_leverage_request scenario1_market 0 =
      Except.ok
        { composite_risk_score := 0.515
          risk_level := RiskLevel.MEDIUM
          action_required := false
          ltv := 0
          health_factor := 0
          ait_value_usd := 0
          exposure_ratio := 0
          risk_breakdown :=
            { ltv_risk := 0, health_factor_risk := 1, market_risk := 0.5, liquidity_risk := 0.6 }
          recommendations := ["EMERGENCY_DELEVERAGE"]
          timestamp := 0 } := by
  simp [leverage_health_endpoint, assess_leverage_health, empty_leverage_request,
    scenario1_market, leverage_risk_level, leverage_action_required, min_def, max_def]
  norm_num

/-- C2 amended: the leverage health evaluator never fails with
InvalidInputError — every request succeeds, and a request with absent
fields is assessed exactly as the request in which each absent field is
present with the default value 0. -/
theorem leverage_missing_fields_default_to_zero :
    ∀ (data : LeverageRequest) (m : MarketPrediction) (t : ℤ),
      leverage_health_endpoint data m t = Except.ok (assess_leverage_health data m t) ∧
      assess_leverage_health data m t = assess_leverage_health data.withDefaults m t := by
  intro data m t
  refine ⟨rfl, ?_⟩
  obtain ⟨a, b, c, e⟩ := data
  cases a <;> cases b <;> cases c <;> cases e <;> rfl

/-- C6: on scenario 2 (amount 600000, tier 3, jurisdiction US, frequency
10, wallet age 400, defi exposure 0) the KYC evaluator computes
amount_risk = 0.6, velocity_risk = 0.1, wallet_risk = 0 (clamped at 0),
jurisdiction_risk = 0.1, composite = 0.22, classification LOW_RISK with
verification_required = false, and compliance flags exactly
[LARGE_INVESTMENT]. -/
theorem scenario2_kyc_assessment :
    (assess_kyc_risk scenario2_request 0).risk_factors =
      { amount_risk := 0.6, velocity_risk := 0.1, wallet_risk := 0, jurisdiction_risk := 0.1 } ∧
    (assess_kyc_risk scenario2_request 0).kyc_risk_score = 0.22 ∧
    (assess_kyc_risk scenario2_request 0).risk_classification = RiskClassification.LOW_RISK ∧
    (assess_kyc_risk scenario2_request 0).verification_required = false ∧
    (assess_kyc_risk scenario2_request 0).compliance_flags = ["LARGE_INVESTMENT"] := by
  refine ⟨?_, ?_, ?_, ?_, ?_⟩ <;>
    simp [assess_kyc_risk, scenario2_request, min_def, max_def] <;>
    norm_num

/-- C7: each evaluator's constant weight set sums to exactly 1, as exact
rational arithmetic: 0.3+0.3+0.25+0.15 (leverage), 0.3+0.2+0.3+0.2
(KYC) and 0.4+0.3+0.3 (NAV confidence). -/
theorem evaluator_weights_sum_to_one :
    leverage_weights.sum = 1 ∧ kyc_weights.sum = 1 ∧ nav_confidence_weights.sum = 1 := by
  refine ⟨?_, ?_, ?_⟩ <;> norm_num [leverage_weights, kyc_weights, nav_confidence_weights]

/-- C3: on a NAV forecast request that supplies totalSupply explicitly,
a value of 0 makes the forecaster fail with a division error (the
request is rejected rather than yielding an infinite or NaN NAV), while
any positive value yields predicted_nav = expected_collections divided
by the supply. -/
theorem nav_zero_total_supply_rejected :
    ∀ (data : NAVRequest) (m : MarketPrediction) (t : ℤ) (s : ℚ),
      data.totalSupply = some s →
      (s = 0 → predict_invoice_nav data m t = Except.error "ZeroDivisionError") ∧
      (0 < s → ∃ v, predict_invoice_nav data m t = Except.ok v ∧
        v.predicted_nav = expected_collections_of data m / s) := by
  intro data m t s hs
  constructor
  · intro h0
    subst h0
    simp [predict_invoice_nav, hs]
  · intro hpos
    simp only [predict_invoice_nav, hs, Option.getD_some]
    rw [if_neg (ne_of_gt hpos)]
    exact ⟨_, rfl, rfl⟩

/-- C3 witness: with totalSupply = 2 the forecaster succeeds and divides
the expected collections by 2, and with totalSupply = 0 it fails. -/
theorem nav_zero_total_supply_rejected_witness :
    (0:ℚ) < 2 ∧
    (∃ v, predict_invoice_nav sample_nav_request sample_nav_market 0 = Except.ok v ∧
      v.predicted_nav = expected_collections_of sample_nav_request sample_nav_market / 2) ∧
    predict_invoice_nav { sample_nav_request with totalSupply := some 0 } sample_nav_market 0 =
      Except.error "ZeroDivisionError" :=
  ⟨by norm_num,
   (nav_zero_total_supply_rejected sample_nav_request sample_nav_market 0 2 rfl).2 (by norm_num),
   (nav_zero_total_supply_rejected { sample_nav_request with totalSupply := some 0 }
      sample_nav_market 0 0 rfl).1 rfl⟩

/-- C10: when the totalSupply field is absent the forecaster substitutes
1 as the denominator and returns predicted_nav equal to the expected
collections without any error, and a division failure can only occur
when totalSupply is explicitly supplied as 0. -/
theorem nav_missing_total_supply_defaults_to_one :
    ∀ (data : NAVRequest) (m : MarketPrediction) (t : ℤ),
      (data.totalSupply = none →
        ∃ v, predict_invoice_nav data m t = Except.ok v ∧
          v.predicted_nav = expected_collections_of data m) ∧
      (∀ e, predict_invoice_nav data m t = Except.error e → data.totalSupply = some 0) := by
  intro data m t
  constructor
  · intro hnone
    simp only [predict_invoice_nav, hnone, Option.getD_none]
    rw [if_neg (by norm_num : (1:ℚ) ≠ 0)]
    exact ⟨_, rfl, div_one _⟩
  · intro e he
    cases ho : data.totalSupply with
    | none =>
      exfalso
      simp only [predict_invoice_nav, ho, Option.getD_none] at he
      rw [if_neg (by norm_num : (1:ℚ) ≠ 0)] at he
      exact Except.noConfusion he
    | some s =>
      by_cases h0 : s = 0
      · rw [h0]
      · exfalso
        simp only [predict_invoice_nav, ho, Option.getD_some] at he
        rw [if_neg h0] at he
        exact Except.noConfusion he

/-- C10 witness: on a concrete request without a totalSupply field the
forecaster answers with predicted_nav equal to the expected collections. -/
theorem nav_missing_total_supply_witness :
    ∃ v, predict_invoice_nav nav_request_no_supply sample_nav_market 0 = Except.ok v ∧
      v.predicted_nav = expected_collections_of nav_request_no_supply sample_nav_market :=
  (nav_missing_total_supply_defaults_to_one nav_request_no_supply sample_nav_market 0).1 rfl

/-- C4: the leverage tier classification maps every composite score in
[0,1] to exactly one tier, is monotone for the ordering
CRITICAL > HIGH > MEDIUM > LOW, and the band comparisons are strict: a
composite of exactly 0.8 classifies as HIGH and exactly 0.4 as LOW. -/
theorem leverage_tier_bands :
    (∀ x : ℚ, 0 ≤ x → x ≤ 1 → ∃! l, leverage_risk_level x = l) ∧
    (∀ x y : ℚ, y ≤ x →
      RiskLevel.toNat (leverage_risk_level y) ≤ RiskLevel.toNat (leverage_risk_level x)) ∧
    leverage_risk_level 0.8 = RiskLevel.HIGH ∧
    leverage_risk_level 0.4 = RiskLevel.LOW := by
  refine ⟨?_, ?_, ?_, ?_⟩
  · intro x _ _
    exact ⟨leverage_risk_level x, rfl, fun l h => h.symm⟩
  · intro x y h
    unfold leverage_risk_level
    split_ifs <;> simp_all [RiskLevel.toNat] <;> linarith
  · norm_num [leverage_risk_level]
  · norm_num [leverage_risk_level]

/-- C4 witness: the tier of 0.3 is at most the tier of 0.9, and 0.5 has
exactly one tier. -/
theorem leverage_tier_bands_witness :
    (0.3:ℚ) ≤ 0.9 ∧
    RiskLevel.toNat (leverage_risk_level 0.3) ≤ RiskLevel.toNat (leverage_risk_level 0.9) ∧
    (∃! l, leverage_risk_level 0.5 = l) :=
  ⟨by norm_num, leverage_tier_bands.2.1 0.9 0.3 (by norm_num),
   leverage_tier_bands.1 0.5 (by norm_num) (by norm_num)⟩

/-- C5: for every position snapshot with nonnegative collateral,
borrowed amount and health factor, and market scores in [0,1]: the ltv
is the borrowed/collateral ratio when collateral is positive and 0
otherwise, every one of the four risk factors lies in [0,1], and the
weighted composite score lies in [0,1]. -/
theorem leverage_factors_bounded :
    ∀ (tc tb hf av : ℚ) (m : MarketPrediction) (t : ℤ),
      0 ≤ tc → 0 ≤ tb → 0 ≤ hf →
      0 ≤ m.risk_score → m.risk_score ≤ 1 →
      0 ≤ m.liquidity_score → m.liquidity_score ≤ 1 →
      ((assess_leverage_health ⟨some tc, some tb, some hf, some av⟩ m t).ltv
          = if tc > 0 then tb / tc else 0) ∧
      0 ≤ (assess_leverage_health ⟨some tc, some tb, some hf, some av⟩ m t).risk_breakdown.ltv_risk ∧
      (assess_leverage_health ⟨some tc, some tb, some hf, some av⟩ m t).risk_breakdown.ltv_risk ≤ 1 ∧
      0 ≤ (assess_leverage_health ⟨some tc, some tb, some hf, some av⟩ m t).risk_breakdown.health_factor_risk ∧
      (assess_leverage_health ⟨some tc, some tb, some hf, some av⟩ m t).risk_breakdown.health_factor_risk ≤ 1 ∧
      0 ≤ (assess_leverage_health ⟨some tc, some tb, some hf, some av⟩ m t).risk_breakdown.market_risk ∧
      (assess_leverage_health ⟨some tc, some tb, some hf, some av⟩ m t).risk_breakdown.market_risk ≤ 1 ∧
      0 ≤ (assess_leverage_health ⟨some tc, some tb, some hf, some av⟩ m t).risk_breakdown.liquidity_risk ∧
      (assess_leverage_health ⟨some tc, some tb, some hf, some av⟩ m t).risk_breakdown.liquidity_risk ≤ 1 ∧
      0 ≤ (assess_leverage_health ⟨some tc, some tb, some hf, some av⟩ m t).composite_risk_score ∧
      (assess_leverage_health ⟨some tc, some tb, some hf, some av⟩ m t).composite_risk_score ≤ 1 := by
  intro tc tb hf av m t htc htb hhf hr0 hr1 hl0 hl1
  have hltv : (0:ℚ) ≤ if tc > 0 then tb / tc else 0 := by
    split
    · exact div_nonneg htb (le_of_lt (by assumption))
    · exact le_refl 0
  have hA0 : (0:ℚ) ≤ min 1 ((if tc > 0 then tb / tc else 0) / 0.7) :=
    le_min (by norm_num) (div_nonneg hltv (by norm_num))
  have hA1 : min 1 ((if tc > 0 then tb / tc else 0) / 0.7) ≤ 1 := min_le_left _ _
  have hB0 : (0:ℚ) ≤ max 0 (1 - hf / 1.5) := le_max_left _ _
  have hB1 : max 0 (1 - hf / 1.5) ≤ 1 := by
    have : (0:ℚ) ≤ hf / 1.5 := div_nonneg hhf (by norm_num)
    apply max_le (by norm_num)
    linarith
  have hC0 : (0:ℚ) ≤ 1 - m.liquidity_score := by linarith
  have hC1 : (1:ℚ) - m.liquidity_score ≤ 1 := by linarith
  have hD0 : (0:ℚ) ≤ min 1 ((if tc > 0 then tb / tc else 0) / 0.7) * 0.3 +
      max 0 (1 - hf / 1.5) * 0.3 + m.risk_score * 0.25 +
      (1 - m.liquidity_score) * 0.15 := by linarith
  have hD1 : min 1 ((if tc > 0 then tb / tc else 0) / 0.7) * 0.3 +
      max 0 (1 - hf / 1.5) * 0.3 + m.risk_score * 0.25 +
      (1 - m.liquidity_score) * 0.15 ≤ 1 := by linarith
  exact ⟨rfl, hA0, hA1, hB0, hB1, hr0, hr1, hC0, hC1, hD0, hD1⟩

/-- C5 witness: the composite score of scenario 1 lies in [0,1]. -/
theorem leverage_factors_bounded_witness :
    (0:ℚ) ≤ 1000 ∧
    0 ≤ (assess_leverage_health ⟨some 1000, some 750, some 1.1, some 0⟩ scenario1_market 0).composite_risk_score ∧
    (assess_leverage_health ⟨some 1000, some 750, some 1.1, some 0⟩ scenario1_market 0).composite_risk_score ≤ 1 :=
  ⟨by norm_num,
   (leverage_factors_bounded 1000 750 1.1 0 scenario1_market 0 (by norm_num) (by norm_num)
      (by norm_num) (by norm_num [scenario1_market]) (by norm_num [scenario1_market])
      (by norm_num [scenario1_market]) (by norm_num [scenario1_market])).2.2.2.2.2.2.2.2.2.1,
   (leverage_factors_bounded 1000 750 1.1 0 scenario1_market 0 (by norm_num) (by norm_num)
      (by norm_num) (by norm_num [scenario1_market]) (by norm_num [scenario1_market])
      (by norm_num [scenario1_market]) (by norm_num [scenario1_market])).2.2.2.2.2.2.2.2.2.2⟩

/-- C8: the scenario endpoint answers HTTP 400 with an error object on
every key other than base, stress or bull; stress multiplies risk_score
by 1.5 capped at 1.0 and liquidity_score by 0.5; bull multiplies
risk_score by 0.7 and liquidity_score by 1.2 capped at 1.0; base
returns the prediction unadjusted. -/
theorem scenario_analysis_spec :
    (∀ (s : String) (p : MarketPrediction), s ∉ ["base", "stress", "bull"] →
      scenario_analysis s p = Except.error (400, "Invalid scenario")) ∧
    (∀ p : MarketPrediction, scenario_analysis "base" p = Except.ok ("base", p)) ∧
    (∀ p : MarketPrediction, scenario_analysis "stress" p =
      Except.ok ("stress",
        { p with
          risk_score := min 1 (p.risk_score * 1.5)
          liquidity_score := p.liquidity_score * 0.5 })) ∧
    (∀ p : MarketPrediction, scenario_analysis "bull" p =
      Except.ok ("bull",
        { p with
          risk_score := p.risk_score * 0.7
          liquidity_score := min 1 (p.liquidity_score * 1.2) })) := by
  refine ⟨?_, fun p => rfl, fun p => rfl, fun p => rfl⟩
  intro s p h
  simp [scenario_analysis, h]

/-- C8 witness: the unknown key foo is answered with the 400 error. -/
theorem scenario_analysis_spec_witness :
    "foo" ∉ ["base", "stress", "bull"] ∧
    scenario_analysis "foo" scenario1_market = Except.error (400, "Invalid scenario") :=
  ⟨by decide, scenario_analysis_spec.1 "foo" scenario1_market (by decide)⟩

/-- C9: each evaluator is a pure function of its snapshot, the market
prediction and the clock: at any two times the verdicts agree on every
field except the reported timestamp, and two calls with fully identical
inputs yield fully identical verdicts. -/
theorem evaluators_deterministic :
    (∀ (d : LeverageRequest) (m : MarketPrediction) (t₁ t₂ : ℤ),
      (assess_leverage_health d m t₁).atTime 0 = (assess_leverage_health d m t₂).atTime 0 ∧
      (t₁ = t₂ → assess_leverage_health d m t₁ = assess_leverage_health d m t₂)) ∧
    (∀ (d : KYCRequest) (t₁ t₂ : ℤ),
      (assess_kyc_risk d t₁).atTime 0 = (assess_kyc_risk d t₂).atTime 0 ∧
      (t₁ = t₂ → assess_kyc_risk d t₁ = assess_kyc_risk d t₂)) ∧
    (∀ (d : NAVRequest) (m : MarketPrediction) (t₁ t₂ : ℤ),
      (predict_invoice_nav d m t₁).map (fun v => v.atTime 0) =
        (predict_invoice_nav d m t₂).map (fun v => v.atTime 0) ∧
      (t₁ = t₂ → predict_invoice_nav d m t₁ = predict_invoice_nav d m t₂)) := by
  refine ⟨fun d m t₁ t₂ => ⟨rfl, fun h => by rw [h]⟩,
          fun d t₁ t₂ => ⟨rfl, fun h => by rw [h]⟩,
          fun d m t₁ t₂ => ⟨?_, fun h => by rw [h]⟩⟩
  simp only [predict_invoice_nav]
  split <;> rfl

/-- C9 witness: two scenario 1 calls at times 5 and 7 agree on every
field but the timestamp, and two calls at time 5 agree entirely. -/
theorem evaluators_deterministic_witness :
    assess_leverage_health scenario1_request scenario1_market 5 =
      assess_leverage_health scenario1_request scenario1_market 5 ∧
    (assess_leverage_health scenario1_request scenario1_market 5).atTime 0 =
      (assess_leverage_health scenario1_request scenario1_market 7).atTime 0 :=
  ⟨(evaluators_deterministic.1 scenario1_request scenario1_market 5 5).2 rfl,
   (evaluators_deterministic.1 scenario1_request scenario1_market 5 7).1⟩

end Veritas
